import Mathlib

/-!
# Verification of the Miiu-Design modal deep-linking controller

Shallow embedding of the modal controller in `src/script.js` (the
`DOMContentLoaded` block starting at line 268): the project modal that is
opened from portfolio cards, synchronized with the browser URL query
parameter `project` and the history stack.

Modelling conventions:
* Strings returned by `getAttribute` are `Option String` (`none` = attribute
  absent); JavaScript `a || b` on such values is `jsOr` / `jsOrS` (empty
  string is falsy).
* The URL is represented by its `project` query parameter only
  (`urlProject : Option String`); no other part of the URL is touched by the
  controller.
* The history stack is a list of entries together with the current index;
  `history.pushState` truncates the forward entries and appends
  (standard History API semantics). A browser back navigation (`historyBack`)
  decrements the index, restores that entry's URL and fires the `popstate`
  handler, exactly as the browser does.
* Optional modal elements (`titleEl`, `imgEl`, `modalFlags`) are `Option`
  fields: `none` models the element being absent from the page.
-/

namespace MiiuDesign

/-- JavaScript `a || b` for strings: the empty string is falsy. -/
def jsOrS (a b : String) : String := if a = "" then b else a

/-- JavaScript `a || b` where `a` is a nullable string (`getAttribute`). -/
def jsOr (a : Option String) (b : String) : String := jsOrS (a.getD "") b

/-- One entry of the tool-to-descriptor table `toolConfig` (script.js:280). -/
structure ToolDesc where
  className : String
  ariaLabel : String
  visLabel : String
  isImage : Bool
deriving DecidableEq

/-- Result of the JavaScript property access `toolConfig[normalizedKey]`
(script.js:326) on the tool mapping object literal: the key may hit one of
the five own data properties, or — because plain property access walks the
prototype chain — a truthy member inherited from `Object.prototype`.
Since the input key has been lowercased, only the all-lowercase member
names `constructor` and `__proto__` are reachable (every other member name,
such as `toString` or `hasOwnProperty`, contains an uppercase letter and
cannot equal a lowercased key). Any other key yields `undefined`, which is
falsy. -/
inductive Lookup where
  | found (d : ToolDesc)
  | inherited
  | missing
deriving DecidableEq

/-- The property access on the fixed tool mapping configuration
(script.js:280-311, 326), prototype chain included. -/
def toolConfig : String → Lookup := fun k =>
  if k = "ps" then Lookup.found ⟨"bubble-PS", "Photoshop", "PS", false⟩
  else if k = "ai" then Lookup.found ⟨"bubble-AI", "Illustrator", "AI", false⟩
  else if k = "blender" then Lookup.found ⟨"bubble-blender", "Blender", "", true⟩
  else if k = "figma" then Lookup.found ⟨"bubble-figma", "Figma", "", true⟩
  else if k = "pr" then Lookup.found ⟨"bubble-PR", "Premiere Pro", "PR", false⟩
  else if k = "constructor" then Lookup.inherited
  else if k = "__proto__" then Lookup.inherited
  else Lookup.missing

/-- Whether a normalized key names one of the five configured tools. -/
def recognized (k : String) : Bool :=
  match toolConfig k with
  | Lookup.found _ => true
  | _ => false

/-- A rendered tool badge: the outer div's class and aria-label, and the
inner `bubble-text` span, which either carries `role="img"` or holds the
text label (script.js:332-350). -/
structure Bubble where
  className : String
  ariaLabel : String
  roleImg : Bool
  text : String
deriving DecidableEq

/-- Build the badge DOM produced for one recognized tool descriptor
(script.js:332-349). -/
def mkBubble (cfg : ToolDesc) : Bubble :=
  if cfg.isImage then ⟨cfg.className, cfg.ariaLabel, true, ""⟩
  else ⟨cfg.className, cfg.ariaLabel, false, cfg.visLabel⟩

/-- The badge the render loop produces when the lookup hit a truthy
inherited `Object.prototype` member: every descriptor field of such a
`config` reads `undefined`, so the `className` assignment and
`setAttribute` coerce it to the string `undefined` (non-nullable
DOMString), `config.isImage` is falsy (text branch), and assigning
`undefined` to the nullable `textContent` converts it to null, which the
setter treats as the empty string. -/
def protoBubble : Bubble := ⟨"undefined", "undefined", false, ""⟩

/-- The badge rendered, if any, for one lookup result: an own descriptor
makes its configured badge; a truthy inherited member passes the
`if (!config) return` guard (script.js:329) and makes the degenerate
badge; `undefined` is skipped. -/
def lookupBubble : Lookup → Option Bubble
  | Lookup.found d => some (mkBubble d)
  | Lookup.inherited => some protoBubble
  | Lookup.missing => none

/-- A portfolio card element: its data attributes and the `src` of a nested
`img` element, if any (`card.querySelector('img')?.src`). -/
structure Card where
  data_id : Option String
  data_title : Option String
  data_img : Option String
  data_tools : Option String
  nestedImgSrc : Option String
deriving DecidableEq

/-- One browser history entry: the state payload passed to `pushState`
(`some id` models `\x7b project: id \x7d`, `none` models the empty object or
the browser's initial null state) and the `project` parameter of the
entry's URL. -/
structure HEntry where
  payload : Option String
  urlProject : Option String
deriving DecidableEq

/-- The page state seen by the modal controller: the cards in document
order, the optional modal sub-elements with their current content, the
overlay's `aria-hidden` attribute, the body overflow style, the current
URL's `project` parameter and the history stack with its current index. -/
structure St where
  cards : List Card
  titleEl : Option String
  imgEl : Option (String × String)
  modalFlags : Option (List Bubble)
  ariaHidden : Option String
  bodyOverflow : String
  urlProject : Option String
  hist : List HEntry
  histIndex : Nat
deriving DecidableEq

/-- JavaScript `String.prototype.toLowerCase` (the tool keys are ASCII,
where it agrees with per-character lowercasing). -/
def jsToLower (s : String) : String := String.mk (s.toList.map Char.toLower)

/-- JavaScript `String.prototype.trim`: drop whitespace from both ends
(the tool keys are ASCII, where JS and `Char.isWhitespace` agree). -/
def jsTrim (s : String) : String :=
  String.mk
    (((s.toList.dropWhile Char.isWhitespace).reverse.dropWhile
      Char.isWhitespace).reverse)

/-- Accumulator loop for `split(',')`: cut at every comma. -/
def splitCommaAux : List Char → List Char → List String
  | [], acc => [String.mk acc.reverse]
  | c :: cs, acc =>
    if c = ',' then String.mk acc.reverse :: splitCommaAux cs []
    else splitCommaAux cs (c :: acc)

/-- JavaScript `s.split(',')`: the empty string yields `[""]`, adjacent
commas yield empty fields. -/
def jsSplitComma (s : String) : List String := splitCommaAux s.toList []

/-- `toolsAttr.split(',').map(trim).filter(truthy)` (script.js:369). -/
def parseTools (s : String) : List String :=
  ((jsSplitComma s).map jsTrim).filter (fun t => t ≠ "")

/-- Hex digit for percent-encoding. -/
def hexDigit (n : Nat) : Char := "0123456789ABCDEF".toList.getD n 'X'

/-- `%XX` encoding of one byte. -/
def byteHex (b : Nat) : String :=
  String.mk ['%', hexDigit (b / 16), hexDigit (b % 16)]

/-- UTF-8 bytes of a code point. -/
def utf8Bytes (n : Nat) : List Nat :=
  if n < 128 then [n]
  else if n < 2048 then [192 + n / 64, 128 + n % 64]
  else if n < 65536 then [224 + n / 4096, 128 + (n / 64) % 64, 128 + n % 64]
  else [240 + n / 262144, 128 + (n / 4096) % 64, 128 + (n / 64) % 64,
        128 + n % 64]

/-- Characters `encodeURIComponent` leaves unescaped
(alphanumerics and `- _ . ! ~ * ( )` and the apostrophe, code point 39). -/
def uriUnreserved (c : Char) : Bool :=
  "ABCDEFGHIJKLMNOPQRSTUVWXYZabcdefghijklmnopqrstuvwxyz0123456789-_.!~*()".toList.contains c
    || c.val = 39

/-- JavaScript `encodeURIComponent`. -/
def encodeURIComponent (s : String) : String :=
  String.join (s.toList.map (fun c =>
    if uriUnreserved c then String.singleton c
    else String.join ((utf8Bytes c.toNat).map byteHex)))

/-- The picsum placeholder image URL derived from the card id
(script.js:364): seed is `encodeURIComponent(id || 'long')`. -/
def placeholderUrl (id : String) : String :=
  "https://picsum.photos/seed/" ++ encodeURIComponent (jsOrS id "long")
    ++ "/900/3000"

/-- `history.pushState(payload, '', url)`: truncate forward entries, append
the new entry, advance the index and set the location's URL. -/
def pushState (payload : Option String) (url : Option String) (st : St) :
    St :=
  { st with
    hist := st.hist.take (st.histIndex + 1) ++ [⟨payload, url⟩]
    histIndex := st.histIndex + 1
    urlProject := url }

/-- `modalFlags.appendChild(bubble)` for one rendered badge. -/
def appendBubble (st : St) (bb : Bubble) : St :=
  { st with modalFlags := st.modalFlags.map (fun bs => bs ++ [bb]) }

/-- Body of the `tools.forEach` loop in `renderBubbles` (script.js:324-351):
normalize the key (lowercase then trim), look it up (prototype chain
included), skip falsy results, otherwise append the resulting badge. -/
def renderStep (st : St) (toolKey : String) : St :=
  match lookupBubble (toolConfig (jsTrim (jsToLower toolKey))) with
  | none => st
  | some bb => appendBubble st bb

/-- `renderBubbles(tools)` (script.js:317-352): no-op when the badge
container is absent; otherwise clear it (`innerHTML = ''`) and render each
tool in order. -/
def renderBubbles (tools : List String) (st : St) : St :=
  match st.modalFlags with
  | none => st
  | some _ => tools.foldl renderStep { st with modalFlags := some [] }

/-- `openFromCard(card, pushHistory)` (script.js:355-381). -/
def openFromCard (card : Card) (pushHistory : Bool) (st : St) : St :=
  let id := jsOr card.data_id ""
  let title := jsOr card.data_title "Project"
  let img := jsOr card.data_img (jsOr card.nestedImgSrc "")
  let toolsAttr := jsOr card.data_tools ""
  let st1 := { st with titleEl := st.titleEl.map (fun _ => title) }
  let st2 := { st1 with
    imgEl := st1.imgEl.map (fun _ => (jsOrS img (placeholderUrl id), title)) }
  let st3 := renderBubbles (parseTools toolsAttr) st2
  let st4 := { st3 with ariaHidden := some "false", bodyOverflow := "hidden" }
  if pushHistory then pushState (some id) (some (jsOrS id "p")) st4 else st4

/-- `closeModal(fromHistory)` (script.js:383-395). -/
def closeModal (fromHistory : Bool) (st : St) : St :=
  let st1 := { st with ariaHidden := some "true", bodyOverflow := "" }
  if fromHistory then st1 else pushState none none st1

/-- `openFromUrl(push)` (script.js:428-439): read the `project` parameter,
bail out on a missing or empty value, look up the first card whose
`data-id` attribute equals it, open it on a match. Returns the found flag
together with the resulting state. -/
def openFromUrl (push : Bool) (st : St) : Bool × St :=
  match st.urlProject with
  | none => (false, st)
  | some id =>
    if id = "" then (false, st)
    else
      match st.cards.find? (fun c => c.data_id == some id) with
      | some card => (true, openFromCard card push st)
      | none => (false, st)

/-- The load-time deep-linking call `openFromUrl(false)` (script.js:442). -/
def pageLoad (st : St) : St := (openFromUrl false st).2

/-- The `popstate` handler (script.js:445-452). -/
def popstateHandler (st : St) : St :=
  if st.urlProject.isSome then (openFromUrl false st).2
  else if st.ariaHidden = some "false" then closeModal true st
  else st

/-- A browser back navigation: if there is a previous entry, move the index
back, restore that entry's URL, and fire the `popstate` handler. -/
def historyBack (st : St) : St :=
  if st.histIndex = 0 then st
  else
    let i := st.histIndex - 1
    let e := st.hist.getD i ⟨none, none⟩
    popstateHandler { st with histIndex := i, urlProject := e.urlProject }

/-- The id string `openFromCard` reads from a card:
`card.getAttribute('data-id') || ''`. -/
def cardId (c : Card) : String := jsOr c.data_id ""

/-- The displayed title: `card.getAttribute('data-title') || 'Project'`. -/
def cardTitle (c : Card) : String := jsOr c.data_title "Project"

/-- The image source `openFromCard` displays: `data-img`, else the nested
image's src, else the placeholder URL. -/
def resolvedImg (c : Card) : String :=
  jsOrS (jsOr c.data_img (jsOr c.nestedImgSrc "")) (placeholderUrl (cardId c))

/-- The badge list produced for a tool-key list. -/
def bubbleList (tools : List String) : List Bubble :=
  tools.filterMap (fun k => lookupBubble (toolConfig (jsTrim (jsToLower k))))

/-- The badge list produced when a given card is opened. -/
def bubblesOf (c : Card) : List Bubble :=
  bubbleList (parseTools (jsOr c.data_tools ""))

/-- The effect of `openFromCard` on the page, before the optional history
push: populate title, image and badges, mark the overlay visible, suppress
scroll. -/
def openCore (c : Card) (st : St) : St :=
  { st with
    titleEl := st.titleEl.map (fun _ => cardTitle c)
    imgEl := st.imgEl.map (fun _ => (resolvedImg c, cardTitle c))
    modalFlags := st.modalFlags.map (fun _ => bubblesOf c)
    ariaHidden := some "false"
    bodyOverflow := "hidden" }

/-- Fold of `openFromCard` over a sequence of (card, pushHistory) triggers. -/
def applyOpens (cs : List (Card × Bool)) (st : St) : St :=
  cs.foldl (fun s cb => openFromCard cb.1 cb.2 s) st

/-- A concrete card with id `a` used to exercise the theorems. -/
def wCard : Card := ⟨some "a", some "Alpha", none, some "PS, nope ,figma", none⟩

/-- A concrete card with id `b`. -/
def wCardB : Card := ⟨some "b", some "Beta", none, none, none⟩

/-- A concrete load-time page: two cards, deep link to card `a`. -/
def wSt : St :=
  { cards := [wCard, wCardB]
    titleEl := some ""
    imgEl := some ("", "")
    modalFlags := some []
    ariaHidden := some "true"
    bodyOverflow := ""
    urlProject := some "a"
    hist := [⟨none, some "a"⟩]
    histIndex := 0 }

/-- A concrete load-time page whose URL carries a dangling deep link:
`project=zzz` matches no card. -/
def danglingSt : St :=
  { wSt with urlProject := some "zzz", hist := [⟨none, some "zzz"⟩] }

/-- A concrete card whose `data-id` attribute is present but empty. -/
def emptyIdCard : Card := ⟨some "", some "Tee", none, none, none⟩

/-- A concrete load-time page whose URL has an empty `project` value and
whose only card has an empty `data-id` attribute. -/
def emptyDeepSt : St :=
  { cards := [emptyIdCard]
    titleEl := some "init"
    imgEl := some ("", "")
    modalFlags := some []
    ariaHidden := some "true"
    bodyOverflow := ""
    urlProject := some ""
    hist := [⟨none, some ""⟩]
    histIndex := 0 }

/-- A concrete card whose `data-img` attribute is present but empty and
whose nested image element has a non-empty source. -/
def imgCard : Card := ⟨some "x", some "Tee", some "", none, some "pic.png"⟩

/-- A concrete card whose `data-tools` list is the single key
`constructor`, which is not in the descriptor table. -/
def protoCard : Card := ⟨some "k", some "Kay", none, some "constructor", none⟩

theorem foldl_renderStep (tools : List String) (st : St) (bs : List Bubble)
    (h : st.modalFlags = some bs) :
    tools.foldl renderStep st =
      { st with modalFlags := some (bs ++ bubbleList tools) } := by
  induction tools generalizing st bs with
  | nil =>
    simp only [List.foldl_nil, bubbleList, List.filterMap_nil, List.append_nil,
      ← h]
  | cons k ks ih =>
    simp only [List.foldl_cons]
    cases hc : lookupBubble (toolConfig (jsTrim (jsToLower k))) with
    | none =>
      have hstep : renderStep st k = st := by simp [renderStep, hc]
      rw [hstep, ih st bs h]
      simp [bubbleList, List.filterMap_cons, hc]
    | some bb =>
      have h2 : (renderStep st k).modalFlags = some (bs ++ [bb]) := by
        simp [renderStep, hc, appendBubble, h]
      rw [ih _ _ h2]
      simp [renderStep, hc, appendBubble, bubbleList, List.filterMap_cons, h]

theorem renderBubbles_none (tools : List String) (st : St)
    (h : st.modalFlags = none) : renderBubbles tools st = st := by
  unfold renderBubbles
  split
  · rfl
  · simp_all

theorem renderBubbles_some (tools : List String) (st : St) (bs : List Bubble)
    (h : st.modalFlags = some bs) :
    renderBubbles tools st =
      { st with modalFlags := some (bubbleList tools) } := by
  unfold renderBubbles
  split
  · simp_all
  · rw [foldl_renderStep tools _ [] rfl]
    simp

theorem renderBubbles_eq (tools : List String) (st : St) :
    renderBubbles tools st =
      { st with modalFlags := st.modalFlags.map (fun _ => bubbleList tools) } := by
  cases hm : st.modalFlags with
  | none =>
    rw [renderBubbles_none tools st hm]
    simp only [hm, Option.map_none']
    rw [← hm]
  | some bs =>
    rw [renderBubbles_some tools st bs hm]
    simp [hm]

theorem openFromCard_eq (c : Card) (b : Bool) (st : St) :
    openFromCard c b st =
      if b then
        pushState (some (cardId c)) (some (jsOrS (cardId c) "p")) (openCore c st)
      else openCore c st := by
  cases b <;>
    simp [openFromCard, renderBubbles_eq, openCore, cardTitle, cardId,
      resolvedImg, bubblesOf]

theorem openFromCard_modalFlags (c : Card) (b : Bool) (st : St) :
    (openFromCard c b st).modalFlags =
      st.modalFlags.map (fun _ => bubblesOf c) := by
  rw [openFromCard_eq]
  cases b <;> simp [pushState, openCore]

theorem openFromUrl_no_match (st : St) (Y : String) (push : Bool)
    (hY : st.urlProject = some Y)
    (hno : ∀ c ∈ st.cards, ¬(c.data_id = some Y)) :
    openFromUrl push st = (false, st) := by
  have hfind : st.cards.find? (fun c => c.data_id == some Y) = none := by
    rw [List.find?_eq_none]
    intro c hc
    simpa using hno c hc
  unfold openFromUrl
  rw [hY]
  by_cases hid : Y = ""
  · simp [hid]
  · simp [hid, hfind]

theorem openFromUrl_match (st : St) (X : String) (c : Card) (push : Bool)
    (hX : st.urlProject = some X) (hne : X ≠ "")
    (hfind : st.cards.find? (fun d => d.data_id == some X) = some c) :
    openFromUrl push st = (true, openFromCard c push st) := by
  unfold openFromUrl
  rw [hX]
  simp [hne, hfind]

theorem openFromUrl_false_frame (st : St) :
    (openFromUrl false st).2.hist = st.hist ∧
    (openFromUrl false st).2.histIndex = st.histIndex ∧
    (openFromUrl false st).2.urlProject = st.urlProject := by
  unfold openFromUrl
  cases hu : st.urlProject with
  | none => simp [hu]
  | some id =>
    by_cases hid : id = ""
    · simp [hu, hid]
    · cases hf : st.cards.find? (fun c => c.data_id == some id) with
      | none => simp [hu, hid, hf]
      | some card => simp [hu, hid, hf, openFromCard_eq, openCore]

theorem openFromCard_push_proj (c : Card) (st : St) :
    (openFromCard c true st).hist =
      st.hist.take (st.histIndex + 1) ++
        [⟨some (cardId c), some (jsOrS (cardId c) "p")⟩] ∧
    (openFromCard c true st).histIndex = st.histIndex + 1 ∧
    (openFromCard c true st).urlProject = some (jsOrS (cardId c) "p") ∧
    (openFromCard c true st).ariaHidden = some "false" := by
  rw [openFromCard_eq]
  simp [pushState, openCore]

theorem closeModal_false_proj (st : St) :
    (closeModal false st).hist =
      st.hist.take (st.histIndex + 1) ++ [⟨none, none⟩] ∧
    (closeModal false st).histIndex = st.histIndex + 1 ∧
    (closeModal false st).urlProject = none ∧
    (closeModal false st).ariaHidden = some "true" := by
  simp [closeModal, pushState]

theorem historyBack_to (st : St) (e : HEntry)
    (h : st.histIndex ≠ 0)
    (he : st.hist.getD (st.histIndex - 1) ⟨none, none⟩ = e) :
    historyBack st =
      popstateHandler
        { st with histIndex := st.histIndex - 1, urlProject := e.urlProject } := by
  have he2 : (st.hist[st.histIndex - 1]?.getD ⟨none, none⟩) = e := by
    simpa [List.getD] using he
  unfold historyBack
  simp [h, he2]

/-- C1, counterexample: the claim lists `openFromUrl` at load unconditionally
among the transitions after which the overlay is visible iff the `project`
parameter is present. On a page loaded with a dangling deep link
(`project=zzz`, no matching card) `openFromUrl(false)` completes with the
parameter still present and the overlay still hidden, so the claimed iff
fails. -/
theorem C1_counterexample :
    ¬(((pageLoad danglingSt).ariaHidden = some "false") ↔
      (pageLoad danglingSt).urlProject.isSome = true) := by
  decide

/-- C1, amended: after `openFromCard` with `pushHistory = true`, after
`closeModal` not triggered by history, and after an `openFromUrl` call that
found a matching card (returned `true`), the overlay's `aria-hidden`
attribute marks it visible iff the `project` parameter is present in the
current URL. -/
theorem C1_consistency :
    (∀ (c : Card) (st : St),
        (((openFromCard c true st).ariaHidden = some "false") ↔
          (openFromCard c true st).urlProject.isSome = true)) ∧
    (∀ st : St,
        (((closeModal false st).ariaHidden = some "false") ↔
          (closeModal false st).urlProject.isSome = true)) ∧
    (∀ (push : Bool) (st : St), (openFromUrl push st).1 = true →
        (((openFromUrl push st).2.ariaHidden = some "false") ↔
          (openFromUrl push st).2.urlProject.isSome = true)) := by
  refine ⟨?_, ?_, ?_⟩
  · intro c st
    rw [openFromCard_eq]
    simp [pushState, openCore]
  · intro st
    simp [closeModal, pushState]
  · intro push st h
    cases hu : st.urlProject with
    | none =>
      have hz : openFromUrl push st = (false, st) := by
        unfold openFromUrl
        rw [hu]
      rw [hz] at h
      simp at h
    | some id =>
      by_cases hid : id = ""
      · have hz : openFromUrl push st = (false, st) := by
          unfold openFromUrl
          rw [hu]
          simp [hid]
        rw [hz] at h
        simp at h
      · cases hf : st.cards.find? (fun c => c.data_id == some id) with
        | none =>
          have hz : openFromUrl push st = (false, st) := by
            unfold openFromUrl
            rw [hu]
            simp [hid, hf]
          rw [hz] at h
          simp at h
        | some card =>
          have heq := openFromUrl_match st id card push hu hid hf
          rw [heq]
          rw [openFromCard_eq]
          cases push <;> simp [pushState, openCore, hu, hid]

/-- C1, witness: the amended consistency applied to the concrete load of
`wSt`, whose deep link `project=a` matches card `a`. -/
theorem C1_consistency_witness :
    ((openFromUrl false wSt).2.ariaHidden = some "false") ↔
      (openFromUrl false wSt).2.urlProject.isSome = true :=
  C1_consistency.2.2 false wSt (by decide)

/-- C5: when the URL's `project` parameter matches no card's `data-id`,
`openFromUrl` returns `false` and leaves the whole page state unchanged
(in particular the modal stays closed); being a total function of the
embedding, it throws nothing. -/
theorem C5_no_match (st : St) (Y : String)
    (hY : st.urlProject = some Y)
    (hno : ∀ c ∈ st.cards, ¬(c.data_id = some Y)) :
    (∀ push : Bool, openFromUrl push st = (false, st)) ∧
    pageLoad st = st ∧
    (pageLoad st).ariaHidden = st.ariaHidden := by
  have key := fun push => openFromUrl_no_match st Y push hY hno
  refine ⟨key, ?_, ?_⟩ <;> rw [pageLoad, key false]

/-- C5, witness: the dangling deep link `project=zzz` on the concrete page
`danglingSt` matches neither card. -/
theorem C5_no_match_witness :
    (∀ push : Bool, openFromUrl push danglingSt = (false, danglingSt)) ∧
    pageLoad danglingSt = danglingSt ∧
    (pageLoad danglingSt).ariaHidden = danglingSt.ariaHidden :=
  C5_no_match danglingSt "zzz" (by decide) (by decide)

/-- C6: `closeModal(true)` only synchronizes visual state (marks the
overlay hidden and restores scroll), leaving URL, history stack and index
and every other field untouched; `closeModal(false)` additionally pushes
exactly one entry whose URL lacks the `project` parameter. A direct close
after any open leaves the parameter absent and the overlay hidden, and so
does a history close, which the controller only issues when the browser
has already removed the parameter. -/
theorem C6_close_frame :
    (∀ st : St, closeModal true st =
        { st with ariaHidden := some "true", bodyOverflow := "" }) ∧
    (∀ st : St, closeModal false st =
        { st with ariaHidden := some "true", bodyOverflow := ""
                  urlProject := none
                  hist := st.hist.take (st.histIndex + 1) ++ [⟨none, none⟩]
                  histIndex := st.histIndex + 1 }) ∧
    (∀ (c : Card) (b : Bool) (st : St),
        (closeModal false (openFromCard c b st)).urlProject = none ∧
        (closeModal false (openFromCard c b st)).ariaHidden = some "true") ∧
    (∀ st : St, st.urlProject = none →
        (closeModal true st).urlProject = none ∧
        (closeModal true st).ariaHidden = some "true") := by
  refine ⟨?_, ?_, ?_, ?_⟩
  · intro st
    simp [closeModal]
  · intro st
    simp [closeModal, pushState]
  · intro c b st
    simp [closeModal, pushState]
  · intro st hu
    simp [closeModal, hu]

/-- C6, witness: the history-close case applied to the concrete closed-URL
page obtained by a direct close on `wSt`. -/
theorem C6_close_frame_witness :
    (closeModal true (closeModal false wSt)).urlProject = none ∧
    (closeModal true (closeModal false wSt)).ariaHidden = some "true" :=
  C6_close_frame.2.2.2 (closeModal false wSt) (by decide)

/-- C2: the popstate handler closes the modal as history-originated (no
history mutation) when the URL lacks a `project` parameter and the modal is
open, and replays `openFromUrl` without pushing when it has one; after the
sequence open A, direct close, open B, a browser back navigation
deterministically restores the prior (closed) state without adding any
history entry. -/
theorem C2_popstate :
    (∀ st : St, st.urlProject = none → st.ariaHidden = some "false" →
        popstateHandler st = closeModal true st ∧
        (popstateHandler st).hist = st.hist ∧
        (popstateHandler st).histIndex = st.histIndex) ∧
    (∀ st : St, st.urlProject.isSome = true →
        popstateHandler st = (openFromUrl false st).2 ∧
        (popstateHandler st).hist = st.hist ∧
        (popstateHandler st).histIndex = st.histIndex) ∧
    (∀ (st0 : St) (e0 : HEntry) (cA cB : Card),
        st0.hist = [e0] → st0.histIndex = 0 →
        (historyBack (openFromCard cB true (closeModal false
            (openFromCard cA true st0)))).ariaHidden = some "true" ∧
        (historyBack (openFromCard cB true (closeModal false
            (openFromCard cA true st0)))).urlProject = none ∧
        (historyBack (openFromCard cB true (closeModal false
            (openFromCard cA true st0)))).hist =
          (openFromCard cB true (closeModal false
            (openFromCard cA true st0))).hist ∧
        (historyBack (openFromCard cB true (closeModal false
            (openFromCard cA true st0)))).histIndex =
          (openFromCard cB true (closeModal false
            (openFromCard cA true st0))).histIndex - 1) := by
  refine ⟨?_, ?_, ?_⟩
  · intro st hu ha
    have h1 : popstateHandler st = closeModal true st := by
      simp [popstateHandler, hu, ha]
    refine ⟨h1, ?_, ?_⟩ <;> rw [h1] <;> simp [closeModal]
  · intro st hu
    have h1 : popstateHandler st = (openFromUrl false st).2 := by
      simp [popstateHandler, hu]
    obtain ⟨hh, hj, _⟩ := openFromUrl_false_frame st
    exact ⟨h1, by rw [h1, hh], by rw [h1, hj]⟩
  · intro st0 e0 cA cB h0 hi
    obtain ⟨a1h, a1i, a1u, a1a⟩ := openFromCard_push_proj cA st0
    rw [h0, hi] at a1h
    rw [hi] at a1i
    simp only [List.take_succ_cons, List.take_zero, List.cons_append,
      List.nil_append] at a1h
    obtain ⟨a2h, a2i, a2u, a2a⟩ :=
      closeModal_false_proj (openFromCard cA true st0)
    rw [a1h, a1i] at a2h
    rw [a1i] at a2i
    simp only [List.take_succ_cons, List.take_zero, List.cons_append,
      List.nil_append] at a2h
    obtain ⟨a3h, a3i, a3u, a3a⟩ :=
      openFromCard_push_proj cB (closeModal false (openFromCard cA true st0))
    rw [a2h, a2i] at a3h
    rw [a2i] at a3i
    simp only [List.take_succ_cons, List.take_zero, List.cons_append,
      List.nil_append] at a3h
    have hidx3 :
        (openFromCard cB true (closeModal false
          (openFromCard cA true st0))).histIndex = 3 := by
      rw [a3i]
    have hb := historyBack_to
      (openFromCard cB true (closeModal false (openFromCard cA true st0)))
      ⟨none, none⟩ (by rw [hidx3]; omega)
      (by rw [hidx3, a3h]; rfl)
    have hps : popstateHandler
        { openFromCard cB true (closeModal false (openFromCard cA true st0)) with
          histIndex := (openFromCard cB true (closeModal false
            (openFromCard cA true st0))).histIndex - 1
          urlProject := (⟨none, none⟩ : HEntry).urlProject } =
        closeModal true
          { openFromCard cB true (closeModal false (openFromCard cA true st0)) with
            histIndex := (openFromCard cB true (closeModal false
              (openFromCard cA true st0))).histIndex - 1
            urlProject := (⟨none, none⟩ : HEntry).urlProject } := by
      simp [popstateHandler, a3a]
    refine ⟨?_, ?_, ?_, ?_⟩ <;> rw [hb, hps] <;> simp [closeModal]

/-- C2, witness: the open-close-open-back scenario run on the concrete page
`wSt` with cards `a` and `b`. -/
theorem C2_popstate_witness :
    (historyBack (openFromCard wCardB true (closeModal false
        (openFromCard wCard true wSt)))).ariaHidden = some "true" ∧
    (historyBack (openFromCard wCardB true (closeModal false
        (openFromCard wCard true wSt)))).urlProject = none ∧
    (historyBack (openFromCard wCardB true (closeModal false
        (openFromCard wCard true wSt)))).hist =
      (openFromCard wCardB true (closeModal false
        (openFromCard wCard true wSt))).hist ∧
    (historyBack (openFromCard wCardB true (closeModal false
        (openFromCard wCard true wSt)))).histIndex =
      (openFromCard wCardB true (closeModal false
        (openFromCard wCard true wSt))).histIndex - 1 :=
  C2_popstate.2.2 wSt ⟨none, some "a"⟩ wCard wCardB (by decide) (by decide)

/-- C3: every direct open or close pushes exactly one new history entry
after the current one and never replaces it: an open's entry carries
`project=id` (or `project=p` for an empty id) in its URL and the id in its
state payload; the stack up to and including the current entry is
preserved; opening card A then card B from a fresh page adds exactly two
entries and leaves the URL's `project` parameter equal to B's id. -/
theorem C3_history_push :
    (∀ (c : Card) (st : St),
        (openFromCard c true st).hist =
          st.hist.take (st.histIndex + 1) ++
            [⟨some (cardId c), some (jsOrS (cardId c) "p")⟩] ∧
        (openFromCard c true st).histIndex = st.histIndex + 1 ∧
        (cardId c ≠ "" →
          (openFromCard c true st).urlProject = some (cardId c)) ∧
        (cardId c = "" → (openFromCard c true st).urlProject = some "p")) ∧
    (∀ st : St,
        (closeModal false st).hist =
          st.hist.take (st.histIndex + 1) ++ [⟨none, none⟩] ∧
        (closeModal false st).histIndex = st.histIndex + 1) ∧
    (∀ (c : Card) (st : St), st.histIndex < st.hist.length →
        (openFromCard c true st).hist.take (st.histIndex + 1) =
          st.hist.take (st.histIndex + 1) ∧
        (closeModal false st).hist.take (st.histIndex + 1) =
          st.hist.take (st.histIndex + 1)) ∧
    (∀ (st0 : St) (e0 : HEntry) (cA cB : Card) (idB : String),
        st0.hist = [e0] → st0.histIndex = 0 → cB.data_id = some idB →
        idB ≠ "" →
        (openFromCard cB true (openFromCard cA true st0)).hist.length =
          st0.hist.length + 2 ∧
        (openFromCard cB true (openFromCard cA true st0)).urlProject =
          some idB) := by
  refine ⟨?_, ?_, ?_, ?_⟩
  · intro c st
    obtain ⟨h1, h2, h3, _⟩ := openFromCard_push_proj c st
    refine ⟨h1, h2, ?_, ?_⟩
    · intro hne
      rw [h3]
      simp [jsOrS, hne]
    · intro hz
      rw [h3, hz]
      simp [jsOrS]
  · intro st
    obtain ⟨h1, h2, _, _⟩ := closeModal_false_proj st
    exact ⟨h1, h2⟩
  · intro c st h
    have hlen : (st.hist.take (st.histIndex + 1)).length = st.histIndex + 1 := by
      rw [List.length_take]
      omega
    constructor
    · obtain ⟨h1, _, _, _⟩ := openFromCard_push_proj c st
      rw [h1, List.take_append_of_le_length (by rw [hlen]), List.take_take]
      simp
    · obtain ⟨h1, _, _, _⟩ := closeModal_false_proj st
      rw [h1, List.take_append_of_le_length (by rw [hlen]), List.take_take]
      simp
  · intro st0 e0 cA cB idB h0 hi hB hne
    obtain ⟨a1h, a1i, _, _⟩ := openFromCard_push_proj cA st0
    rw [h0, hi] at a1h
    rw [hi] at a1i
    simp only [List.take_succ_cons, List.take_zero, List.cons_append,
      List.nil_append] at a1h
    obtain ⟨a2h, a2i, a2u, _⟩ :=
      openFromCard_push_proj cB (openFromCard cA true st0)
    rw [a1h, a1i] at a2h
    simp only [List.take_succ_cons, List.take_zero, List.cons_append,
      List.nil_append] at a2h
    have hid : cardId cB = idB := by
      simp [cardId, jsOr, jsOrS, hB, hne]
    constructor
    · rw [a2h, h0]
      rfl
    · rw [a2u, hid]
      simp [jsOrS, hne]

/-- C3, witness: the open-A-then-open-B scenario run on the concrete page
`wSt`, whose card `b` has the non-empty id `b`. -/
theorem C3_history_push_witness :
    (openFromCard wCardB true (openFromCard wCard true wSt)).hist.length =
      wSt.hist.length + 2 ∧
    (openFromCard wCardB true (openFromCard wCard true wSt)).urlProject =
      some "b" :=
  C3_history_push.2.2.2 wSt ⟨none, some "a"⟩ wCard wCardB "b" (by decide)
    (by decide) (by decide) (by decide)

/-- C4, counterexample: with `project=` (the empty string) in the URL and a
card whose `data-id` attribute equals that empty string, `openFromUrl`
bails out on the falsy id before looking for the card, so the modal is not
open after initialization even though a card with a matching `data-id`
exists. -/
theorem C4_counterexample :
    (∃ c ∈ emptyDeepSt.cards, c.data_id = some "") ∧
    emptyDeepSt.urlProject = some "" ∧
    ¬((pageLoad emptyDeepSt).ariaHidden = some "false") := by
  decide

/-- C4, amended: at page load, if the URL's `project` parameter is a
non-empty X and the first card whose `data-id` equals X is c, then after
the load-time `openFromUrl(false)` call the modal is open and populated
with c's title, image and badges, and the history stack and index are
untouched. -/
theorem C4_deeplink (st : St) (X : String) (c : Card)
    (hX : st.urlProject = some X) (hne : X ≠ "")
    (hfind : st.cards.find? (fun d => d.data_id == some X) = some c) :
    (openFromUrl false st).1 = true ∧
    (pageLoad st).ariaHidden = some "false" ∧
    (pageLoad st).titleEl = st.titleEl.map (fun _ => cardTitle c) ∧
    (pageLoad st).imgEl =
      st.imgEl.map (fun _ => (resolvedImg c, cardTitle c)) ∧
    (pageLoad st).modalFlags = st.modalFlags.map (fun _ => bubblesOf c) ∧
    (pageLoad st).hist = st.hist ∧
    (pageLoad st).histIndex = st.histIndex := by
  have h2 := openFromUrl_match st X c false hX hne hfind
  unfold pageLoad
  rw [h2]
  rw [openFromCard_eq]
  simp [openCore]

/-- C4, witness: the amended deep-link theorem applied to the concrete page
`wSt`, loaded with `project=a`. -/
theorem C4_deeplink_witness :
    (openFromUrl false wSt).1 = true ∧
    (pageLoad wSt).ariaHidden = some "false" ∧
    (pageLoad wSt).titleEl = wSt.titleEl.map (fun _ => cardTitle wCard) ∧
    (pageLoad wSt).imgEl =
      wSt.imgEl.map (fun _ => (resolvedImg wCard, cardTitle wCard)) ∧
    (pageLoad wSt).modalFlags =
      wSt.modalFlags.map (fun _ => bubblesOf wCard) ∧
    (pageLoad wSt).hist = wSt.hist ∧
    (pageLoad wSt).histIndex = wSt.histIndex :=
  C4_deeplink wSt "a" wCard (by decide) (by decide) (by decide)

/-- C7, code bug: the render loop's `if (!config) return` guard is meant
to skip unknown tools (the code's own comment at script.js:328 says `Skip
unknown tools`), but `toolConfig[normalizedKey]` walks the prototype
chain, so the unrecognized key `constructor` yields a truthy inherited
`Object.prototype` member, passes the guard and renders a degenerate
badge: a card whose `data-tools` is the single key `constructor` produces
one badge although its list contains zero recognized keys, refuting
badge count = recognized-key count. -/
theorem C7_inherited_key_bug :
    recognized "constructor" = false ∧
    ((parseTools "constructor").filter
      (fun k => recognized (jsTrim (jsToLower k)))).length = 0 ∧
    (openFromCard protoCard true wSt).modalFlags = some [protoBubble] ∧
    ((openFromCard protoCard true wSt).modalFlags.getD []).length = 1 := by
  decide

/-- C8, counterexample: the claim gives the present `data-img` attribute
top priority, but for a card whose `data-img` is present and empty and
whose nested image has source `pic.png`, the code displays `pic.png`, not
the attribute's (empty) value: JavaScript `||` skips empty strings, so
priority goes by non-emptiness, not presence. -/
theorem C8_counterexample :
    imgCard.data_img.isSome = true ∧
    (openFromCard imgCard true emptyDeepSt).imgEl =
      some ("pic.png", "Tee") ∧
    ("pic.png" : String) ≠ "" := by
  refine ⟨rfl, ?_, by decide⟩
  rw [openFromCard_eq]
  simp [pushState, openCore, emptyDeepSt, resolvedImg, cardTitle, cardId,
    imgCard, jsOr, jsOrS]

/-- C8, amended: `openFromCard` resolves the displayed image by this
priority: the card's non-empty `data-img` attribute value; otherwise the
non-empty source of the card's nested image element; otherwise the
placeholder URL derived from the card's id, whose seed is the literal
`long` when the id is empty. -/
theorem C8_image_priority (c : Card) (b : Bool) (st : St)
    (p : String × String) (h : st.imgEl = some p) :
    (openFromCard c b st).imgEl = some (resolvedImg c, cardTitle c) ∧
    (∀ s : String, c.data_img = some s → s ≠ "" → resolvedImg c = s) ∧
    (∀ n : String, jsOr c.data_img "" = "" → c.nestedImgSrc = some n →
      n ≠ "" → resolvedImg c = n) ∧
    (jsOr c.data_img "" = "" → jsOr c.nestedImgSrc "" = "" →
      resolvedImg c = placeholderUrl (cardId c)) ∧
    (cardId c = "" →
      placeholderUrl (cardId c) =
        "https://picsum.photos/seed/long/900/3000") := by
  refine ⟨?_, ?_, ?_, ?_, ?_⟩
  · rw [openFromCard_eq]
    cases b <;> simp [pushState, openCore, h]
  · intro s hs hsne
    simp [resolvedImg, jsOr, jsOrS, hs, hsne]
  · intro n hd hn hnne
    have hd2 : c.data_img.getD "" = "" := by
      by_cases hc : c.data_img.getD "" = ""
      · exact hc
      · simp [jsOr, jsOrS, hc] at hd
    simp [resolvedImg, jsOr, jsOrS, hd2, hn, hnne]
  · intro hd hn
    simp [resolvedImg, jsOr, jsOrS] at hd hn ⊢
    simp [hd, hn]
  · intro hz
    rw [hz]
    decide

/-- C8, witness: the amended priority applied to the concrete card with an
empty `data-img` and nested source `pic.png` on the page `emptyDeepSt`. -/
theorem C8_image_priority_witness :
    (openFromCard imgCard false emptyDeepSt).imgEl =
      some (resolvedImg imgCard, cardTitle imgCard) ∧
    (∀ s : String, imgCard.data_img = some s → s ≠ "" →
      resolvedImg imgCard = s) ∧
    (∀ n : String, jsOr imgCard.data_img "" = "" →
      imgCard.nestedImgSrc = some n → n ≠ "" → resolvedImg imgCard = n) ∧
    (jsOr imgCard.data_img "" = "" → jsOr imgCard.nestedImgSrc "" = "" →
      resolvedImg imgCard = placeholderUrl (cardId imgCard)) ∧
    (cardId imgCard = "" →
      placeholderUrl (cardId imgCard) =
        "https://picsum.photos/seed/long/900/3000") :=
  C8_image_priority imgCard false emptyDeepSt ("", "") (by decide)

/-- C9: `renderBubbles` clears the badge container before rendering, so
after any sequence of `openFromCard` calls the container holds exactly the
badges derived from the most recently opened card; badges never accumulate
across successive opens. -/
theorem C9_no_accumulation (cs : List (Card × Bool)) (c : Card) (b : Bool)
    (st : St) (h : st.modalFlags.isSome = true) :
    (openFromCard c b (applyOpens cs st)).modalFlags =
      some (bubblesOf c) := by
  have hpres : ∀ (l : List (Card × Bool)) (s : St),
      s.modalFlags.isSome = true →
      (applyOpens l s).modalFlags.isSome = true := by
    intro l
    induction l with
    | nil =>
      intro s hs
      exact hs
    | cons cb l ih =>
      intro s hs
      have h2 : (openFromCard cb.1 cb.2 s).modalFlags.isSome = true := by
        rw [openFromCard_modalFlags]
        simpa using hs
      simpa [applyOpens, List.foldl_cons] using
        ih (openFromCard cb.1 cb.2 s) h2
  rw [openFromCard_modalFlags]
  obtain ⟨x, hx⟩ := Option.isSome_iff_exists.mp (hpres cs st h)
  rw [hx]
  rfl

/-- C9, witness: three successive opens on the concrete page `wSt` followed
by a fourth; only the last card's badges remain. -/
theorem C9_no_accumulation_witness :
    (openFromCard wCardB false
        (applyOpens [(wCard, true), (wCardB, false), (wCard, false)] wSt)).modalFlags =
      some (bubblesOf wCardB) :=
  C9_no_accumulation [(wCard, true), (wCardB, false), (wCard, false)]
    wCardB false wSt (by decide)

/-- C10: opening a card whose `data-id` attribute is empty pushes the URL
`project=p` while the state payload records the empty id; a URL carrying
`project=p` makes `openFromUrl` search for a card whose `data-id` equals
`p`, so without such a card it returns `false` and changes nothing (the
empty-id open does not round-trip through the URL), and with one it opens
that card instead of the original. -/
theorem C10_empty_id :
    (∀ (c : Card) (st : St), c.data_id = some "" →
        (openFromCard c true st).urlProject = some "p" ∧
        (openFromCard c true st).hist =
          st.hist.take (st.histIndex + 1) ++ [⟨some "", some "p"⟩]) ∧
    (∀ st : St, st.urlProject = some "p" →
        (∀ d ∈ st.cards, ¬(d.data_id = some "p")) →
        ∀ push : Bool, openFromUrl push st = (false, st)) ∧
    (∀ (st : St) (d : Card), st.urlProject = some "p" →
        st.cards.find? (fun x => x.data_id == some "p") = some d →
        ∀ push : Bool,
          openFromUrl push st = (true, openFromCard d push st)) := by
  refine ⟨?_, ?_, ?_⟩
  · intro c st hc
    have hcid : cardId c = "" := by
      simp [cardId, jsOr, jsOrS, hc]
    obtain ⟨h1, _, h3, _⟩ := openFromCard_push_proj c st
    constructor
    · rw [h3, hcid]
      simp [jsOrS]
    · rw [h1, hcid]
      simp [jsOrS]
  · intro st hu hno push
    exact openFromUrl_no_match st "p" push hu hno
  · intro st d hu hfind push
    exact openFromUrl_match st "p" d push hu (by decide) hfind

/-- C10, witness: the empty-id card opened on the concrete page `wSt`, and
`openFromUrl` run on that page re-targeted at `project=p`, which matches
neither of its cards. -/
theorem C10_empty_id_witness :
    ((openFromCard emptyIdCard true wSt).urlProject = some "p" ∧
      (openFromCard emptyIdCard true wSt).hist =
        wSt.hist.take (wSt.histIndex + 1) ++ [⟨some "", some "p"⟩]) ∧
    (∀ push : Bool,
      openFromUrl push { wSt with urlProject := some "p" } =
        (false, { wSt with urlProject := some "p" })) :=
  ⟨C10_empty_id.1 emptyIdCard wSt (by decide),
   C10_empty_id.2.1 { wSt with urlProject := some "p" } (by decide)
     (by decide)⟩

end MiiuDesign
